import Mathlib

/-! Status classification of `FGitSourceControlState`.

A shallow embedding of `Source/GitSourceControl/Private/GitSourceControlState.cpp`:
the per-file status record, the history lookups, the capability predicates, the
prioritised state returned by `GetGitState`, and the icon, label and tooltip
switches built on it.

C++ `bool` is `Bool`, a `switch` is a `match`, and a nullable out-pointer
`FString*` is an `Option String` (`none` for the null pointer, `some w` for a
pointer to a string currently holding `w`), with the content of the pointee
after the call returned next to the result.
-/

/-! ## Data model -/

/-- Modelled from the spec: the enumeration `ETreeState` is declared in the header
`GitSourceControlState.h`, which is not part of the sources; the enumerators are
the six of the `treeState` axis, five of which the source file names. -/
inductive ETreeState
  | Unmodified
  | Working
  | Staged
  | Untracked
  | Ignored
  | NotInRepo
  deriving DecidableEq, Repr

/-- Modelled from the spec: the enumeration `EFileState` is declared in the missing
header; the enumerators are the five of the `fileState` axis, all named by the
source file. -/
inductive EFileState
  | Unknown
  | Added
  | Deleted
  | Modified
  | Unmerged
  deriving DecidableEq, Repr

/-- Modelled from the spec: the enumeration `ERemoteState` is declared in the missing
header; the enumerators are the four of the `remoteState` axis. -/
inductive ERemoteState
  | Unknown
  | NotAtHead
  | NotLatest
  | UpToDate
  deriving DecidableEq, Repr

/-- Modelled from the spec: the enumeration `ELockState` is declared in the missing
header; the enumerators are the five of the `lockState` axis. -/
inductive ELockState
  | Unknown
  | NotLocked
  | Locked
  | LockedOther
  | Unlockable
  deriving DecidableEq, Repr

/-- Modelled from the spec: the enumeration `EGitState::Type` is declared in the
missing header; the enumerators are the twelve states the spec lists for the
classifier together with `Ignored`, which the switches of `GetIcon`,
`GetDisplayName` and `GetDisplayTooltip` name. -/
inductive EGitState
  | NotAtHead
  | LockedOther
  | NotLatest
  | Unmerged
  | Added
  | Deleted
  | Modified
  | Untracked
  | CheckedOut
  | Lockable
  | Unmodified
  | Ignored
  | None
  deriving DecidableEq, Repr

/-- Modelled from the spec: the record `FGitState` (member `State`) is declared in
the missing header; the fields are the four axes and the lock holder, the members
the source file reads through `State.`. -/
structure FGitState where
  TreeState : ETreeState
  FileState : EFileState
  RemoteState : ERemoteState
  LockState : ELockState
  LockUser : String
  deriving DecidableEq, Repr

/-- Modelled from the spec: a history entry (`FGitSourceControlRevision`) is declared
elsewhere; the fields are the three the source file reads: `GetRevision()`,
`GetRevisionNumber()` and `FileHash`. -/
structure FGitSourceControlRevision where
  Revision : String
  RevisionNumber : Int
  FileHash : String
  deriving DecidableEq, Repr

/-- Modelled from the spec: the class `FGitSourceControlState` is declared in the
missing header; the fields are the data members the source file reads. -/
structure FGitSourceControlState where
  State : FGitState
  HeadBranch : String
  HeadCommit : String
  HeadAction : String
  History : List FGitSourceControlRevision
  PendingMergeBaseFileHash : String
  LocalFilename : String
  deriving DecidableEq, Repr

/-- Localised text as the source builds it: `FText()` is `empty`,
`LOCTEXT(key, text)` is `loc key text`, and
`FText::Format(LOCTEXT(key, pattern), FText::FromString(a), ...)` is
`format key pattern [a, ...]`. -/
inductive FText
  | empty
  | loc (key : String) (text : String)
  | format (key : String) (pattern : String) (args : List String)
  deriving DecidableEq, Repr

/-- A status with the given four axes and lock holder, and nothing else set. -/
def FGitSourceControlState.ofAxes (t : ETreeState) (f : EFileState) (r : ERemoteState)
    (l : ELockState) (user : String) : FGitSourceControlState :=
  FGitSourceControlState.mk (FGitState.mk t f r l user) "" "" "" [] "" ""

/-- A status that is unmodified and up to date, with the given history and pending
merge-base file hash. -/
def FGitSourceControlState.ofHistory (History : List FGitSourceControlRevision)
    (PendingMergeBaseFileHash : String) : FGitSourceControlState :=
  FGitSourceControlState.mk
    (FGitState.mk ETreeState.Unmodified EFileState.Unknown ERemoteState.UpToDate
      ELockState.Unknown "")
    "" "" "" History PendingMergeBaseFileHash ""

namespace FGitSourceControlState

/-! ## History lookups -/

/-- Source `GetHistorySize` (lines 11-14): `History.Num()`. -/
def GetHistorySize (s : FGitSourceControlState) : Int :=
  (s.History.length : Int)

/-- Modelled from the spec: `TArray::IsValidIndex` is engine code, not part of the
sources; an index passed to positional access is in range when it is at least 0 and
below the number of entries. -/
def IsValidIndex (History : List FGitSourceControlRevision) (Index : Int) : Bool :=
  decide (0 ≤ Index) && decide (Index < (History.length : Int))

/-- Modelled from the spec: the macro `check` is engine code, not part of the
sources; a check that fails is a contract violation and the function does not
return (`none`), a check that holds lets it go on (`some ()`). -/
def check (expr : Bool) : Option Unit :=
  if expr then some () else none

/-- Source `GetHistoryItem` (lines 16-20): `check(History.IsValidIndex(HistoryIndex))`
followed by the positional access; `none` is the failed check. -/
def GetHistoryItem (s : FGitSourceControlState) (HistoryIndex : Int) :
    Option FGitSourceControlRevision :=
  (check (IsValidIndex s.History HistoryIndex)).bind
    fun _ => s.History.get? HistoryIndex.toNat

/-- Source `IsModifiedInOtherBranch` (lines 236-239); the parameter `CurrentBranch`,
which the body does not read, is left out. -/
def IsModifiedInOtherBranch (s : FGitSourceControlState) : Bool :=
  s.State.RemoteState == ERemoteState.NotLatest

/-- Source `GetOtherBranchHeadModification` (lines 241-252). The three reference
parameters come in with their values before the call; the result pairs the returned
`bool` with their values after it. -/
def GetOtherBranchHeadModification (s : FGitSourceControlState) (HeadBranchOut : String)
    (ActionOut : String) (HeadChangeListOut : Int) : Bool × String × String × Int :=
  if !s.IsModifiedInOtherBranch then (false, HeadBranchOut, ActionOut, HeadChangeListOut)
  else (true, s.HeadBranch, s.HeadAction, 0)

/-- Source `IsCurrent` (lines 254-257). -/
def IsCurrent (s : FGitSourceControlState) : Bool :=
  s.State.RemoteState != ERemoteState.NotAtHead && s.State.RemoteState != ERemoteState.NotLatest

/-- Source `IsSourceControlled` (lines 259-262). -/
def IsSourceControlled (s : FGitSourceControlState) : Bool :=
  s.State.TreeState != ETreeState.Untracked && s.State.TreeState != ETreeState.Ignored
    && s.State.TreeState != ETreeState.NotInRepo

/-- Source `IsAdded` (lines 264-268). -/
def IsAdded (s : FGitSourceControlState) : Bool :=
  s.State.FileState == EFileState.Added

/-- Source `IsDeleted` (lines 270-273). -/
def IsDeleted (s : FGitSourceControlState) : Bool :=
  s.State.FileState == EFileState.Deleted

/-- Source `IsIgnored` (lines 275-278). -/
def IsIgnored (s : FGitSourceControlState) : Bool :=
  s.State.TreeState == ETreeState.Ignored

/-- Source `IsUnknown` (lines 297-300). -/
def IsUnknown (s : FGitSourceControlState) : Bool :=
  s.State.FileState == EFileState.Unknown && s.State.TreeState == ETreeState.NotInRepo

/-- Source `IsModified` (lines 302-306). -/
def IsModified (s : FGitSourceControlState) : Bool :=
  s.State.TreeState == ETreeState.Working || s.State.TreeState == ETreeState.Staged

/-- Source `CanAdd` (lines 309-312). -/
def CanAdd (s : FGitSourceControlState) : Bool :=
  s.State.TreeState == ETreeState.Untracked

/-- Source `IsConflicted` (lines 314-317). -/
def IsConflicted (s : FGitSourceControlState) : Bool :=
  s.State.FileState == EFileState.Unmerged

/-- Source `CanCheckIn` (lines 165-192): four tests in order, each returning. -/
def CanCheckIn (s : FGitSourceControlState) : Bool :=
  if s.IsAdded then true
  else if !s.IsCurrent || s.IsConflicted then false
  else if s.State.LockState == ELockState.Locked then true
  else if s.State.LockState != ELockState.LockedOther && s.IsModified && s.IsSourceControlled then
    true
  else false

/-- Source `CanCheckout` (lines 194-206). -/
def CanCheckout (s : FGitSourceControlState) : Bool :=
  if s.State.LockState == ELockState.Unlockable then false
  else s.State.LockState == ELockState.NotLocked && s.IsCurrent

/-- Source `IsCheckedOut` (lines 208-218). -/
def IsCheckedOut (s : FGitSourceControlState) : Bool :=
  if s.State.LockState == ELockState.Unlockable then s.IsSourceControlled
  else s.State.LockState == ELockState.Locked

/-- Source `IsCheckedOutOther` (lines 220-228). `Who` is the out-pointer: `none` is
`NULL`, `some w` a pointer to a string holding `w`. The result pairs the returned
`bool` with the pointee after the call. The single condition tests the lock state
and the pointer together, as the source does. -/
def IsCheckedOutOther (s : FGitSourceControlState) (Who : Option String) :
    Bool × Option String :=
  if s.State.LockState == ELockState.LockedOther && Who.isSome then
    (true, some s.State.LockUser)
  else (false, Who)

/-- Modelled from the spec: the default argument of `IsCheckedOutOther`, which the
call `IsCheckedOutOther()` in `CanDelete` relies on, is written in the declaration
in the missing header; a call without a receiver for the user name passes the null
pointer. -/
def DefaultWho : Option String := none

/-- Source `IsCheckedOutInOtherBranch` (lines 230-234). -/
def IsCheckedOutInOtherBranch (_s : FGitSourceControlState) (_CurrentBranch : String) : Bool :=
  false

/-- Source `CanEdit` (lines 280-284). -/
def CanEdit (s : FGitSourceControlState) : Bool :=
  s.IsCheckedOut || s.IsAdded

/-- Source `CanDelete` (lines 286-295); `IsCheckedOutOther()` is called with its
default argument. -/
def CanDelete (s : FGitSourceControlState) : Bool :=
  if !s.IsCurrent then false
  else !(s.IsCheckedOutOther DefaultWho).1 && s.IsSourceControlled

/-- Source `CanRevert` (lines 319-322). -/
def CanRevert (s : FGitSourceControlState) : Bool :=
  s.CanCheckIn

/-! ## The prioritised state -/

/-- Source `GetGitState` (lines 324-382): the switch on the remote state, the two
tests on lock and remote state, the switch on the file state, then the tests on
tree state, lock state and `IsSourceControlled` with `CanCheckout` inside. -/
def GetGitState (s : FGitSourceControlState) : EGitState :=
  match s.State.RemoteState with
  | ERemoteState.NotAtHead => EGitState.NotAtHead
  | _ =>
    if s.State.LockState == ELockState.LockedOther then EGitState.LockedOther
    else if s.State.RemoteState == ERemoteState.NotLatest then EGitState.NotLatest
    else
      match s.State.FileState with
      | EFileState.Unmerged => EGitState.Unmerged
      | EFileState.Added => EGitState.Added
      | EFileState.Deleted => EGitState.Deleted
      | EFileState.Modified => EGitState.Modified
      | _ =>
        if s.State.TreeState == ETreeState.Untracked then EGitState.Untracked
        else if s.State.LockState == ELockState.Locked then EGitState.CheckedOut
        else if s.IsSourceControlled then
          if s.CanCheckout then EGitState.Lockable else EGitState.Unmodified
        else EGitState.None

/-! ## Presentation switches -/

/-- Source `GetIcon` (lines 62-88): the switch on `GetGitState()`. The result is the
style name of the icon in the application style set; `none` is the default
`FSlateIcon()`. -/
def GetIcon (s : FGitSourceControlState) : Option String :=
  match s.GetGitState with
  | EGitState.NotAtHead => some "Perforce.NotAtHeadRevision"
  | EGitState.LockedOther => some "Perforce.CheckedOutByOtherUser"
  | EGitState.NotLatest => some "Perforce.ModifiedOtherBranch"
  | EGitState.Unmerged => some "Perforce.Branched"
  | EGitState.Added => some "Perforce.OpenForAdd"
  | EGitState.Untracked => some "Perforce.NotInDepot"
  | EGitState.Deleted => some "Perforce.MarkedForDelete"
  | EGitState.Modified => some "Perforce.CheckedOut"
  | EGitState.CheckedOut => some "Perforce.CheckedOut"
  | EGitState.Ignored => some "Perforce.NotInDepot"
  | _ => none

/-- Source `GetDisplayName` (lines 90-120): the switch on `GetGitState()`. -/
def GetDisplayName (s : FGitSourceControlState) : FText :=
  match s.GetGitState with
  | EGitState.NotAtHead => FText.loc "NotCurrent" "Not current"
  | EGitState.LockedOther => FText.format "CheckedOutOther" "Checked out by: {0}" [s.State.LockUser]
  | EGitState.NotLatest => FText.format "ModifiedOtherBranch" "Modified in branch: {0}" [s.HeadBranch]
  | EGitState.Unmerged => FText.loc "Conflicted" "Conflicted"
  | EGitState.Added => FText.loc "OpenedForAdd" "Opened for add"
  | EGitState.Untracked => FText.loc "NotInDepot" "Not in depot"
  | EGitState.Deleted => FText.loc "MarkedForDelete" "Marked for delete"
  | EGitState.Modified => FText.loc "CheckedOut" "Checked out"
  | EGitState.CheckedOut => FText.loc "CheckedOut" "Checked out"
  | EGitState.Ignored => FText.loc "Ignore" "Ignore"
  | EGitState.Lockable => FText.loc "ReadOnly" "Read only"
  | EGitState.None => FText.loc "Unknown" "Unknown"
  | _ => FText.empty

/-- Source `GetDisplayTooltip` (lines 122-152): the switch on `GetGitState()`. -/
def GetDisplayTooltip (s : FGitSourceControlState) : FText :=
  match s.GetGitState with
  | EGitState.NotAtHead =>
    FText.loc "NotCurrent_Tooltip" "The file(s) are not at the head revision"
  | EGitState.LockedOther =>
    FText.format "CheckedOutOther_Tooltip" "Checked out by: {0}" [s.State.LockUser]
  | EGitState.NotLatest =>
    FText.format "ModifiedOtherBranch_Tooltip" "Modified in branch: {0} CL:{1} ({2})"
      [s.HeadBranch, s.HeadCommit, s.HeadAction]
  | EGitState.Unmerged =>
    FText.loc "ContentsConflict_Tooltip"
      "The contents of the item conflict with updates received from the repository."
  | EGitState.Added => FText.loc "OpenedForAdd_Tooltip" "The file(s) are opened for add"
  | EGitState.Untracked => FText.loc "NotControlled_Tooltip" "Item is not under version control."
  | EGitState.Deleted => FText.loc "MarkedForDelete_Tooltip" "The file(s) are marked for delete"
  | EGitState.Modified => FText.loc "CheckedOut_Tooltip" "The file(s) are checked out"
  | EGitState.CheckedOut => FText.loc "CheckedOut_Tooltip" "The file(s) are checked out"
  | EGitState.Ignored => FText.loc "Ignored_Tooltip" "Item is being ignored."
  | EGitState.Lockable =>
    FText.loc "ReadOnly_Tooltip" "The file(s) are marked locally as read-only"
  | EGitState.None => FText.loc "Unknown_Tooltip" "The file(s) status is unknown"
  | _ => FText.empty

/-! ## The classifier as the specification words it -/

/-- The eight-rule priority list of the specification (section 4.1), written from
its words: the first rule that matches decides. Rule 7 spells out
`IsSourceControlled` and `CanCheckout` as the specification defines them. -/
def ClassifyState (s : FGitSourceControlState) : EGitState :=
  if s.State.RemoteState = ERemoteState.NotAtHead then EGitState.NotAtHead
  else if s.State.LockState = ELockState.LockedOther then EGitState.LockedOther
  else if s.State.RemoteState = ERemoteState.NotLatest then EGitState.NotLatest
  else if s.State.FileState = EFileState.Unmerged then EGitState.Unmerged
  else if s.State.FileState = EFileState.Added then EGitState.Added
  else if s.State.FileState = EFileState.Deleted then EGitState.Deleted
  else if s.State.FileState = EFileState.Modified then EGitState.Modified
  else if s.State.TreeState = ETreeState.Untracked then EGitState.Untracked
  else if s.State.LockState = ELockState.Locked then EGitState.CheckedOut
  else if s.State.TreeState ∉
      [ETreeState.Untracked, ETreeState.Ignored, ETreeState.NotInRepo] then
    if s.State.LockState ≠ ELockState.Unlockable ∧ s.State.LockState = ELockState.NotLocked
        ∧ s.State.RemoteState ∉ [ERemoteState.NotAtHead, ERemoteState.NotLatest] then
      EGitState.Lockable
    else EGitState.Unmodified
  else EGitState.None

end FGitSourceControlState

/-! ## Theorems -/

namespace FGitSourceControlState

/-- Helper: no status is classified `Ignored`; `GetGitState` has no return of it. -/
theorem GetGitState_ne_Ignored_aux (s : FGitSourceControlState) :
    s.GetGitState ≠ EGitState.Ignored := by
  obtain ⟨⟨t, f, r, l, u⟩, hb, hc, ha, hist, pm, fn⟩ := s
  cases t <;> cases f <;> cases r <;> cases l <;>
    simp [GetGitState, IsSourceControlled, CanCheckout, IsCurrent]

/-- C1: for every status (all 600 axis combinations and any strings), `GetGitState`
returns what the eight-rule priority list of the specification gives, first match
winning. -/
theorem GetGitState_eq_ClassifyState (s : FGitSourceControlState) :
    s.GetGitState = s.ClassifyState := by
  obtain ⟨⟨t, f, r, l, u⟩, hb, hc, ha, hist, pm, fn⟩ := s
  cases t <;> cases f <;> cases r <;> cases l <;> rfl

/-- C2: evaluation at the failing input. A file that is source controlled and
current but locked by another user (`lockState = LockedOther`, holder "alice") can
be deleted according to `CanDelete`, because the call `IsCheckedOutOther()` without
a receiver answers `false`. -/
theorem CanDelete_LockedOther_eval :
    (ofAxes ETreeState.Unmodified EFileState.Unknown ERemoteState.UpToDate
        ELockState.LockedOther "alice").State.LockState = ELockState.LockedOther
      ∧ (ofAxes ETreeState.Unmodified EFileState.Unknown ERemoteState.UpToDate
        ELockState.LockedOther "alice").CanDelete = true := by
  constructor <;> rfl

/-- C3: evaluation at the failing input. For `lockState = LockedOther` with holder
"alice", `IsCheckedOutOther` called without a receiver returns `false`, while the
same call with a receiver returns `true` and leaves "alice" in the receiver. -/
theorem IsCheckedOutOther_null_eval :
    (ofAxes ETreeState.Unmodified EFileState.Unknown ERemoteState.UpToDate
        ELockState.LockedOther "alice").IsCheckedOutOther none = (false, none)
      ∧ (ofAxes ETreeState.Unmodified EFileState.Unknown ERemoteState.UpToDate
        ELockState.LockedOther "alice").IsCheckedOutOther (some "") = (true, some "alice") := by
  constructor <;> rfl

/-- C4: for every status, `CanCheckIn` is true exactly when the file state is
`Added`, or else when the remote state is neither `NotAtHead` nor `NotLatest`, the
file state is not `Unmerged`, and either the lock state is `Locked` or it is not
`LockedOther` while the tree state is `Working` or `Staged`; in particular an added
file can be checked in whatever its other axes. -/
theorem CanCheckIn_iff (s : FGitSourceControlState) :
    (s.CanCheckIn = true ↔
      (s.State.FileState = EFileState.Added ∨
        (s.State.RemoteState ≠ ERemoteState.NotAtHead ∧
          s.State.RemoteState ≠ ERemoteState.NotLatest ∧
          s.State.FileState ≠ EFileState.Unmerged ∧
          (s.State.LockState = ELockState.Locked ∨
            (s.State.LockState ≠ ELockState.LockedOther ∧
              (s.State.TreeState = ETreeState.Working ∨
                s.State.TreeState = ETreeState.Staged))))))
    ∧ (s.State.FileState = EFileState.Added → s.CanCheckIn = true) := by
  obtain ⟨⟨t, f, r, l, u⟩, hb, hc, ha, hist, pm, fn⟩ := s
  cases t <;> cases f <;> cases r <;> cases l <;> simp [CanCheckIn, IsAdded, IsCurrent,
    IsConflicted, IsModified, IsSourceControlled]

/-- C4 witness: an added file that is behind the remote head and locked by another
user can still be checked in. -/
theorem CanCheckIn_iff_witness :
    (ofAxes ETreeState.Untracked EFileState.Added ERemoteState.NotAtHead
      ELockState.LockedOther "bob").CanCheckIn = true :=
  (CanCheckIn_iff (ofAxes ETreeState.Untracked EFileState.Added ERemoteState.NotAtHead
      ELockState.LockedOther "bob")).2 rfl

/-- C5 (as stated, refuted): the status with tree state `Unmodified`, file state
`Unknown`, remote state `UpToDate` and lock state `Unknown` is classified
`Unmodified`, and both `GetDisplayName` and `GetDisplayTooltip` take the default
branch there and return the empty text. -/
theorem GetDisplayName_Unmodified_default :
    (ofAxes ETreeState.Unmodified EFileState.Unknown ERemoteState.UpToDate
        ELockState.Unknown "").GetGitState = EGitState.Unmodified
      ∧ (ofAxes ETreeState.Unmodified EFileState.Unknown ERemoteState.UpToDate
        ELockState.Unknown "").GetDisplayName = FText.empty
      ∧ (ofAxes ETreeState.Unmodified EFileState.Unknown ERemoteState.UpToDate
        ELockState.Unknown "").GetDisplayTooltip = FText.empty := by
  refine ⟨rfl, rfl, rfl⟩

/-- C5 (amended): for every status, `GetDisplayName` and `GetDisplayTooltip` return
the empty text of the default branch exactly when `GetGitState` returns
`Unmodified`; for every other state that `GetGitState` returns they take an
explicit case. -/
theorem GetDisplay_default_iff_Unmodified (s : FGitSourceControlState) :
    (s.GetDisplayName = FText.empty ↔ s.GetGitState = EGitState.Unmodified)
      ∧ (s.GetDisplayTooltip = FText.empty ↔ s.GetGitState = EGitState.Unmodified) := by
  unfold GetDisplayName GetDisplayTooltip
  cases s.GetGitState <;> simp

/-- C6: `GetGitState` returns `NotAtHead` exactly for the statuses whose remote
state is `NotAtHead`, whatever the other three axes. -/
theorem GetGitState_NotAtHead_iff (s : FGitSourceControlState) :
    s.GetGitState = EGitState.NotAtHead ↔ s.State.RemoteState = ERemoteState.NotAtHead := by
  obtain ⟨⟨t, f, r, l, u⟩, hb, hc, ha, hist, pm, fn⟩ := s
  cases t <;> cases f <;> cases r <;> cases l <;>
    simp [GetGitState, IsSourceControlled, CanCheckout, IsCurrent]

/-- C7: the values `GetGitState` returns over all statuses are exactly the twelve
`NotAtHead`, `LockedOther`, `NotLatest`, `Unmerged`, `Added`, `Deleted`, `Modified`,
`Untracked`, `CheckedOut`, `Lockable`, `Unmodified`, `None`: each is returned for
some status, and `Ignored` is returned for none, also not for a status whose tree
state is `Ignored`. -/
theorem GetGitState_range :
    (∀ v : EGitState, (∃ s : FGitSourceControlState, s.GetGitState = v) ↔
      v ∈ [EGitState.NotAtHead, EGitState.LockedOther, EGitState.NotLatest,
        EGitState.Unmerged, EGitState.Added, EGitState.Deleted, EGitState.Modified,
        EGitState.Untracked, EGitState.CheckedOut, EGitState.Lockable,
        EGitState.Unmodified, EGitState.None])
      ∧ (∀ s : FGitSourceControlState, s.GetGitState ≠ EGitState.Ignored)
      ∧ (ofAxes ETreeState.Ignored EFileState.Unknown ERemoteState.UpToDate
          ELockState.NotLocked "").GetGitState = EGitState.None := by
  refine ⟨fun v => ⟨?_, ?_⟩, GetGitState_ne_Ignored_aux, rfl⟩
  · rintro ⟨s, rfl⟩
    have h := GetGitState_ne_Ignored_aux s
    revert h
    cases s.GetGitState <;> simp
  · intro h
    simp only [List.mem_cons, List.mem_singleton, List.not_mem_nil, or_false] at h
    rcases h with h | h | h | h | h | h | h | h | h | h | h | h <;> subst h
    · exact ⟨ofAxes .Unmodified .Unknown .NotAtHead .Unknown "", rfl⟩
    · exact ⟨ofAxes .Unmodified .Unknown .UpToDate .LockedOther "", rfl⟩
    · exact ⟨ofAxes .Unmodified .Unknown .NotLatest .Unknown "", rfl⟩
    · exact ⟨ofAxes .Unmodified .Unmerged .UpToDate .Unknown "", rfl⟩
    · exact ⟨ofAxes .Unmodified .Added .UpToDate .Unknown "", rfl⟩
    · exact ⟨ofAxes .Unmodified .Deleted .UpToDate .Unknown "", rfl⟩
    · exact ⟨ofAxes .Unmodified .Modified .UpToDate .Unknown "", rfl⟩
    · exact ⟨ofAxes .Untracked .Unknown .UpToDate .Unknown "", rfl⟩
    · exact ⟨ofAxes .Unmodified .Unknown .UpToDate .Locked "", rfl⟩
    · exact ⟨ofAxes .Unmodified .Unknown .UpToDate .NotLocked "", rfl⟩
    · exact ⟨ofAxes .Unmodified .Unknown .UpToDate .Unknown "", rfl⟩
    · exact ⟨ofAxes .NotInRepo .Unknown .UpToDate .Unknown "", rfl⟩

/-- C8: for every status whose remote state is `NotAtHead` or `NotLatest`,
`IsCurrent` is false and `CanCheckout` is false, whatever the other three axes. -/
theorem CanCheckout_false_of_not_current (s : FGitSourceControlState)
    (h : s.State.RemoteState = ERemoteState.NotAtHead ∨
      s.State.RemoteState = ERemoteState.NotLatest) :
    s.IsCurrent = false ∧ s.CanCheckout = false := by
  obtain ⟨⟨t, f, r, l, u⟩, hb, hc, ha, hist, pm, fn⟩ := s
  rcases h with h | h <;> simp only at h <;> subst h <;> cases l <;>
    simp [CanCheckout, IsCurrent]

/-- C8 witness: an unlocked, unmodified file that is behind another branch. -/
theorem CanCheckout_false_of_not_current_witness :
    (ofAxes ETreeState.Unmodified EFileState.Unknown ERemoteState.NotLatest
        ELockState.NotLocked "").IsCurrent = false
      ∧ (ofAxes ETreeState.Unmodified EFileState.Unknown ERemoteState.NotLatest
        ELockState.NotLocked "").CanCheckout = false :=
  CanCheckout_false_of_not_current
    (ofAxes ETreeState.Unmodified EFileState.Unknown ERemoteState.NotLatest
      ELockState.NotLocked "") (Or.inr rfl)

/-- C9: for every status, `CanRevert` equals `CanCheckIn`, so each implies the
other. -/
theorem CanRevert_eq_CanCheckIn (s : FGitSourceControlState) :
    s.CanRevert = s.CanCheckIn ∧ (s.CanRevert = true ↔ s.CanCheckIn = true) :=
  ⟨rfl, Iff.rfl⟩

/-- C10: for every status with lock state `Unlockable`, `IsCheckedOut` equals
`IsSourceControlled`, so two such statuses with the same `IsSourceControlled` have
the same `IsCheckedOut`; for every other lock state `IsCheckedOut` is true exactly
when the lock state is `Locked`. -/
theorem IsCheckedOut_spec :
    (∀ s : FGitSourceControlState, s.State.LockState = ELockState.Unlockable →
        s.IsCheckedOut = s.IsSourceControlled)
      ∧ (∀ s₁ s₂ : FGitSourceControlState, s₁.State.LockState = ELockState.Unlockable →
        s₂.State.LockState = ELockState.Unlockable →
        s₁.IsSourceControlled = s₂.IsSourceControlled → s₁.IsCheckedOut = s₂.IsCheckedOut)
      ∧ (∀ s : FGitSourceControlState, s.State.LockState ≠ ELockState.Unlockable →
        (s.IsCheckedOut = true ↔ s.State.LockState = ELockState.Locked)) := by
  have h1 : ∀ s : FGitSourceControlState, s.State.LockState = ELockState.Unlockable →
      s.IsCheckedOut = s.IsSourceControlled := by
    intro s h
    simp [IsCheckedOut, h]
  refine ⟨h1, ?_, ?_⟩
  · intro s₁ s₂ e₁ e₂ h
    rw [h1 s₁ e₁, h1 s₂ e₂, h]
  · intro s h
    have hb : (s.State.LockState == ELockState.Unlockable) = false := by
      simpa using h
    simp [IsCheckedOut, hb]

/-- C10 witness: an `Unlockable` file in the working tree is checked out, with a
conflicted file state and a stale remote state as well as without. -/
theorem IsCheckedOut_spec_witness :
    (ofAxes ETreeState.Working EFileState.Unmerged ERemoteState.NotAtHead
        ELockState.Unlockable "").IsCheckedOut
      = (ofAxes ETreeState.Staged EFileState.Unknown ERemoteState.UpToDate
        ELockState.Unlockable "").IsCheckedOut :=
  IsCheckedOut_spec.2.1
    (ofAxes ETreeState.Working EFileState.Unmerged ERemoteState.NotAtHead
      ELockState.Unlockable "")
    (ofAxes ETreeState.Staged EFileState.Unknown ERemoteState.UpToDate
      ELockState.Unlockable "") rfl rfl rfl

/-- C11: for every status with lock state `Locked`, remote state `Unknown` or
`UpToDate` and file state `Added`, `Deleted` or `Modified`, whatever the tree state,
`GetGitState` returns the state named after the file state (so never `CheckedOut`)
and `CanCheckIn` is true. -/
theorem GetGitState_Locked_fileState (s : FGitSourceControlState)
    (hl : s.State.LockState = ELockState.Locked)
    (hr : s.State.RemoteState = ERemoteState.Unknown ∨
      s.State.RemoteState = ERemoteState.UpToDate)
    (hf : s.State.FileState = EFileState.Added ∨ s.State.FileState = EFileState.Deleted ∨
      s.State.FileState = EFileState.Modified) :
    (s.State.FileState = EFileState.Added → s.GetGitState = EGitState.Added)
      ∧ (s.State.FileState = EFileState.Deleted → s.GetGitState = EGitState.Deleted)
      ∧ (s.State.FileState = EFileState.Modified → s.GetGitState = EGitState.Modified)
      ∧ s.GetGitState ≠ EGitState.CheckedOut
      ∧ s.CanCheckIn = true := by
  obtain ⟨⟨t, f, r, l, u⟩, hb, hc, ha, hist, pm, fn⟩ := s
  simp only at hl hr hf
  subst hl
  rcases hr with hr | hr <;> subst hr <;> rcases hf with hf | hf | hf <;> subst hf <;>
    simp [GetGitState, CanCheckIn, IsAdded, IsCurrent, IsConflicted]

/-- C11 witness (scenario B): a staged, modified, up to date file that is locked
is classified `Modified` and can be checked in. -/
theorem GetGitState_Locked_fileState_witness :
    (ofAxes ETreeState.Staged EFileState.Modified ERemoteState.UpToDate
        ELockState.Locked "").GetGitState = EGitState.Modified
      ∧ (ofAxes ETreeState.Staged EFileState.Modified ERemoteState.UpToDate
        ELockState.Locked "").CanCheckIn = true :=
  ⟨(GetGitState_Locked_fileState
      (ofAxes ETreeState.Staged EFileState.Modified ERemoteState.UpToDate ELockState.Locked "")
      rfl (Or.inr rfl) (Or.inr (Or.inr rfl))).2.2.1 rfl,
    (GetGitState_Locked_fileState
      (ofAxes ETreeState.Staged EFileState.Modified ERemoteState.UpToDate ELockState.Locked "")
      rfl (Or.inr rfl) (Or.inr (Or.inr rfl))).2.2.2.2⟩

/-- C12: for every status with tree state `Untracked`, file state `Unknown`, remote
state `Unknown` or `UpToDate` and lock state `Unknown`, `NotLocked` or `Unlockable`,
`GetGitState` returns `Untracked`, `CanAdd` is true and `CanCheckIn` is false. -/
theorem GetGitState_Untracked_scenario (s : FGitSourceControlState)
    (ht : s.State.TreeState = ETreeState.Untracked)
    (hf : s.State.FileState = EFileState.Unknown)
    (hr : s.State.RemoteState = ERemoteState.Unknown ∨
      s.State.RemoteState = ERemoteState.UpToDate)
    (hl : s.State.LockState = ELockState.Unknown ∨ s.State.LockState = ELockState.NotLocked ∨
      s.State.LockState = ELockState.Unlockable) :
    s.GetGitState = EGitState.Untracked ∧ s.CanAdd = true ∧ s.CanCheckIn = false := by
  obtain ⟨⟨t, f, r, l, u⟩, hb, hc, ha, hist, pm, fn⟩ := s
  simp only at ht hf hr hl
  subst ht hf
  rcases hr with hr | hr <;> subst hr <;> rcases hl with hl | hl | hl <;> subst hl <;>
    simp [GetGitState, CanAdd, CanCheckIn, IsAdded, IsCurrent, IsConflicted, IsModified]

/-- C12 witness (scenario A): an untracked, up to date, unlocked file. -/
theorem GetGitState_Untracked_scenario_witness :
    (ofAxes ETreeState.Untracked EFileState.Unknown ERemoteState.UpToDate
        ELockState.NotLocked "").GetGitState = EGitState.Untracked
      ∧ (ofAxes ETreeState.Untracked EFileState.Unknown ERemoteState.UpToDate
        ELockState.NotLocked "").CanAdd = true
      ∧ (ofAxes ETreeState.Untracked EFileState.Unknown ERemoteState.UpToDate
        ELockState.NotLocked "").CanCheckIn = false :=
  GetGitState_Untracked_scenario
    (ofAxes ETreeState.Untracked EFileState.Unknown ERemoteState.UpToDate
      ELockState.NotLocked "") rfl rfl (Or.inr rfl) (Or.inr (Or.inl rfl))

/-- C15: for every history and every integer index `i`, `GetHistoryItem i` returns
the entry at position `i` when `0 ≤ i < GetHistorySize`, and for every other `i`
(negative, or at least `GetHistorySize`, so any `i` on an empty history) the
precondition check fails and no entry is returned. -/
theorem GetHistoryItem_spec (s : FGitSourceControlState) (i : Int) :
    (0 ≤ i ∧ i < s.GetHistorySize →
        ∃ h : i.toNat < s.History.length,
          (i.toNat : Int) = i ∧ s.GetHistoryItem i = some (s.History.get ⟨i.toNat, h⟩))
      ∧ (¬ (0 ≤ i ∧ i < s.GetHistorySize) →
        check (IsValidIndex s.History i) = none ∧ s.GetHistoryItem i = none)
      ∧ (s.History = [] → s.GetHistoryItem i = none) := by
  refine ⟨?_, ?_, ?_⟩
  · rintro ⟨h0, h1⟩
    have hlt : i.toNat < s.History.length := by
      unfold GetHistorySize at h1
      omega
    refine ⟨hlt, Int.toNat_of_nonneg h0, ?_⟩
    have hv : IsValidIndex s.History i = true := by
      unfold GetHistorySize at h1
      simp [IsValidIndex, h0, h1]
    simp [GetHistoryItem, check, hv, List.get?_eq_get hlt]
  · intro h
    have hv : IsValidIndex s.History i = false := by
      unfold GetHistorySize at h
      by_cases h0 : 0 ≤ i
      · have h1 : ¬ i < (s.History.length : Int) := fun h1 => h ⟨h0, h1⟩
        simp [IsValidIndex, h1]
      · simp [IsValidIndex, h0]
    simp [GetHistoryItem, check, hv]
  · intro he
    have hv : IsValidIndex s.History i = false := by
      by_cases h0 : 0 ≤ i
      · have h1 : ¬ i < 0 := by omega
        simp [IsValidIndex, he, h1]
      · simp [IsValidIndex, h0]
    simp [GetHistoryItem, check, hv]

/-- C15 witness: on the history a1, b2, c3 index 1 gives the b2 entry, and index 3
fails the check. -/
theorem GetHistoryItem_spec_witness :
    (∃ h : (1 : Int).toNat <
          (ofHistory [⟨"a1", 3, "h1"⟩, ⟨"b2", 2, "h2"⟩, ⟨"c3", 1, "h3"⟩] "").History.length,
        ((1 : Int).toNat : Int) = 1 ∧
        (ofHistory [⟨"a1", 3, "h1"⟩, ⟨"b2", 2, "h2"⟩, ⟨"c3", 1, "h3"⟩] "").GetHistoryItem 1
          = some ((ofHistory [⟨"a1", 3, "h1"⟩, ⟨"b2", 2, "h2"⟩, ⟨"c3", 1, "h3"⟩] "").History.get
              ⟨(1 : Int).toNat, h⟩))
      ∧ (check (IsValidIndex
          (ofHistory [⟨"a1", 3, "h1"⟩, ⟨"b2", 2, "h2"⟩, ⟨"c3", 1, "h3"⟩] "").History 3) = none
        ∧ (ofHistory [⟨"a1", 3, "h1"⟩, ⟨"b2", 2, "h2"⟩, ⟨"c3", 1, "h3"⟩] "").GetHistoryItem 3
          = none) :=
  ⟨(GetHistoryItem_spec
      (ofHistory [⟨"a1", 3, "h1"⟩, ⟨"b2", 2, "h2"⟩, ⟨"c3", 1, "h3"⟩] "") 1).1
      ⟨by decide, by decide⟩,
    (GetHistoryItem_spec
      (ofHistory [⟨"a1", 3, "h1"⟩, ⟨"b2", 2, "h2"⟩, ⟨"c3", 1, "h3"⟩] "") 3).2.1
      (by decide)⟩

/-- C16: for every status and every prior content of the three output parameters,
`GetOtherBranchHeadModification` returns true exactly when the remote state is
`NotLatest`; when it returns false the outputs keep their prior values, and when it
returns true they are `HeadBranch`, `HeadAction` and 0, whatever `HeadCommit` is. -/
theorem GetOtherBranchHeadModification_spec (s : FGitSourceControlState)
    (HeadBranchOut ActionOut : String) (HeadChangeListOut : Int) :
    ((s.GetOtherBranchHeadModification HeadBranchOut ActionOut HeadChangeListOut).1 = true ↔
        s.State.RemoteState = ERemoteState.NotLatest)
      ∧ ((s.GetOtherBranchHeadModification HeadBranchOut ActionOut HeadChangeListOut).1 = false →
        (s.GetOtherBranchHeadModification HeadBranchOut ActionOut HeadChangeListOut).2
          = (HeadBranchOut, ActionOut, HeadChangeListOut))
      ∧ ((s.GetOtherBranchHeadModification HeadBranchOut ActionOut HeadChangeListOut).1 = true →
        (s.GetOtherBranchHeadModification HeadBranchOut ActionOut HeadChangeListOut).2
          = (s.HeadBranch, s.HeadAction, 0))
      ∧ (∀ commit : String,
        (FGitSourceControlState.mk s.State s.HeadBranch commit s.HeadAction s.History
            s.PendingMergeBaseFileHash s.LocalFilename).GetOtherBranchHeadModification
            HeadBranchOut ActionOut HeadChangeListOut
          = s.GetOtherBranchHeadModification HeadBranchOut ActionOut HeadChangeListOut) := by
  obtain ⟨⟨t, f, r, l, u⟩, hb, hc, ha, hist, pm, fn⟩ := s
  cases r <;> simp [GetOtherBranchHeadModification, IsModifiedInOtherBranch]

/-- C16 witness: a file modified in branch main (action modify, commit abc123)
overwrites the outputs x, y, 7 with main, modify, 0. -/
theorem GetOtherBranchHeadModification_spec_witness :
    ((FGitSourceControlState.mk
        (FGitState.mk ETreeState.Unmodified EFileState.Unknown ERemoteState.NotLatest
          ELockState.NotLocked "")
        "main" "abc123" "modify" [] "" "").GetOtherBranchHeadModification "x" "y" 7).2
      = ("main", "modify", 0) :=
  (GetOtherBranchHeadModification_spec
    (FGitSourceControlState.mk
      (FGitState.mk ETreeState.Unmodified EFileState.Unknown ERemoteState.NotLatest
        ELockState.NotLocked "")
      "main" "abc123" "modify" [] "" "") "x" "y" 7).2.2.1 rfl

/-- C17: for every status with lock state `LockedOther`, `CanCheckIn`, and with it
`CanRevert`, is true exactly when the file state is `Added`, whatever the tree state
and the remote state. -/
theorem CanCheckIn_LockedOther_iff_Added (s : FGitSourceControlState)
    (hl : s.State.LockState = ELockState.LockedOther) :
    (s.CanCheckIn = true ↔ s.State.FileState = EFileState.Added)
      ∧ (s.CanRevert = true ↔ s.State.FileState = EFileState.Added) := by
  obtain ⟨⟨t, f, r, l, u⟩, hb, hc, ha, hist, pm, fn⟩ := s
  simp only at hl
  subst hl
  cases t <;> cases f <;> cases r <;>
    simp [CanRevert, CanCheckIn, IsAdded, IsCurrent, IsConflicted, IsModified,
      IsSourceControlled]

/-- C17 witness: a staged, modified, up to date file locked by another user can be
neither checked in nor reverted. -/
theorem CanCheckIn_LockedOther_iff_Added_witness :
    (ofAxes ETreeState.Staged EFileState.Modified ERemoteState.UpToDate
        ELockState.LockedOther "alice").CanCheckIn = false
      ∧ (ofAxes ETreeState.Staged EFileState.Modified ERemoteState.UpToDate
        ELockState.LockedOther "alice").CanRevert = false := by
  have h := CanCheckIn_LockedOther_iff_Added
    (ofAxes ETreeState.Staged EFileState.Modified ERemoteState.UpToDate
      ELockState.LockedOther "alice") rfl
  have hne : (ofAxes ETreeState.Staged EFileState.Modified ERemoteState.UpToDate
      ELockState.LockedOther "alice").State.FileState ≠ EFileState.Added := by decide
  exact ⟨Bool.eq_false_iff.mpr (fun hc => hne (h.1.mp hc)),
    Bool.eq_false_iff.mpr (fun hc => hne (h.2.mp hc))⟩

/-- C18: for no status are `CanCheckout` and `IsCheckedOut` both true. -/
theorem not_CanCheckout_and_IsCheckedOut (s : FGitSourceControlState) :
    ¬ (s.CanCheckout = true ∧ s.IsCheckedOut = true) := by
  obtain ⟨⟨t, f, r, l, u⟩, hb, hc, ha, hist, pm, fn⟩ := s
  cases l <;> simp [CanCheckout, IsCheckedOut]

/-- C19: for every status, `GetGitState` returns `Lockable` exactly when the remote
state is `Unknown` or `UpToDate`, the file state is `Unknown`, the tree state is
`Unmodified`, `Working` or `Staged` and the lock state is `NotLocked`; it returns
`Unmodified` under the same conditions with lock state `Unknown` or `Unlockable`;
and every status classified `Lockable` has `CanCheckout` true. -/
theorem GetGitState_Lockable_iff (s : FGitSourceControlState) :
    (s.GetGitState = EGitState.Lockable ↔
        ((s.State.RemoteState = ERemoteState.Unknown ∨
            s.State.RemoteState = ERemoteState.UpToDate) ∧
          s.State.FileState = EFileState.Unknown ∧
          (s.State.TreeState = ETreeState.Unmodified ∨ s.State.TreeState = ETreeState.Working ∨
            s.State.TreeState = ETreeState.Staged) ∧
          s.State.LockState = ELockState.NotLocked))
      ∧ (s.GetGitState = EGitState.Unmodified ↔
        ((s.State.RemoteState = ERemoteState.Unknown ∨
            s.State.RemoteState = ERemoteState.UpToDate) ∧
          s.State.FileState = EFileState.Unknown ∧
          (s.State.TreeState = ETreeState.Unmodified ∨ s.State.TreeState = ETreeState.Working ∨
            s.State.TreeState = ETreeState.Staged) ∧
          (s.State.LockState = ELockState.Unknown ∨
            s.State.LockState = ELockState.Unlockable)))
      ∧ (s.GetGitState = EGitState.Lockable → s.CanCheckout = true) := by
  obtain ⟨⟨t, f, r, l, u⟩, hb, hc, ha, hist, pm, fn⟩ := s
  cases t <;> cases f <;> cases r <;> cases l <;>
    simp [GetGitState, IsSourceControlled, CanCheckout, IsCurrent]

/-- C19 witness: a tracked, unchanged, up to date file that nobody has locked is
classified `Lockable` and can be checked out. -/
theorem GetGitState_Lockable_iff_witness :
    (ofAxes ETreeState.Unmodified EFileState.Unknown ERemoteState.UpToDate
      ELockState.NotLocked "").CanCheckout = true :=
  (GetGitState_Lockable_iff
    (ofAxes ETreeState.Unmodified EFileState.Unknown ERemoteState.UpToDate
      ELockState.NotLocked "")).2.2 rfl

/-- C20: for every status that `GetGitState` classifies `None`, the predicates
`CanCheckIn`, `CanRevert`, `CanEdit`, `CanDelete`, `CanAdd` and `IsCheckedOut` are
all false. -/
theorem GetGitState_None_all_false (s : FGitSourceControlState)
    (h : s.GetGitState = EGitState.None) :
    s.CanCheckIn = false ∧ s.CanRevert = false ∧ s.CanEdit = false ∧ s.CanDelete = false
      ∧ s.CanAdd = false ∧ s.IsCheckedOut = false := by
  obtain ⟨⟨t, f, r, l, u⟩, hb, hc, ha, hist, pm, fn⟩ := s
  cases t <;> cases f <;> cases r <;> cases l <;>
    simp [GetGitState, IsSourceControlled, CanCheckout, IsCurrent] at h <;>
    simp [CanRevert, CanCheckIn, CanEdit, CanDelete, CanAdd, IsCheckedOut, IsCheckedOutOther,
      DefaultWho, IsAdded, IsCurrent, IsConflicted, IsModified, IsSourceControlled]

/-- C20 witness: a file outside the repository with nothing known about it. -/
theorem GetGitState_None_all_false_witness :
    (ofAxes ETreeState.NotInRepo EFileState.Unknown ERemoteState.UpToDate
        ELockState.Unknown "").GetGitState = EGitState.None
      ∧ (ofAxes ETreeState.NotInRepo EFileState.Unknown ERemoteState.UpToDate
        ELockState.Unknown "").CanCheckIn = false
      ∧ (ofAxes ETreeState.NotInRepo EFileState.Unknown ERemoteState.UpToDate
        ELockState.Unknown "").CanRevert = false
      ∧ (ofAxes ETreeState.NotInRepo EFileState.Unknown ERemoteState.UpToDate
        ELockState.Unknown "").CanEdit = false
      ∧ (ofAxes ETreeState.NotInRepo EFileState.Unknown ERemoteState.UpToDate
        ELockState.Unknown "").CanDelete = false
      ∧ (ofAxes ETreeState.NotInRepo EFileState.Unknown ERemoteState.UpToDate
        ELockState.Unknown "").CanAdd = false
      ∧ (ofAxes ETreeState.NotInRepo EFileState.Unknown ERemoteState.UpToDate
        ELockState.Unknown "").IsCheckedOut = false :=
  ⟨rfl, GetGitState_None_all_false
    (ofAxes ETreeState.NotInRepo EFileState.Unknown ERemoteState.UpToDate
      ELockState.Unknown "") rfl⟩

end FGitSourceControlState
